import Mathlib

/-!
Shallow embedding of `src/codegate/db/connection.py` (codegate persistence
layer): the `DbCodeGate` constructor's path resolution, `init_db` schema
bootstrap, the generic insert helper `_insert_pydantic_model`, and the
recorder operations `record_request`, `_record_output`,
`record_output_stream`, `record_output_non_stream`, `record_alerts`.

The store (SQLAlchemy + aiosqlite) is modelled as an environment function
`store : α → ExecResult α`: executing the INSERT ... RETURNING statement for
a record either returns the decoded first row (`ok (some row)`), returns no
row (`ok none`), or raises (`exc msg`).  Python heap aliasing of dict chunks
is modelled with an explicit heap `Nat → DictVal`, so that the effect of
`copy.deepcopy` (snapshot at pull time vs. shared reference) is expressible.
-/

namespace Codegate

/-- A JSON-object-ish dict value: ordered string key/value pairs. -/
abbrev DictVal := List (String × String)

/-- Python heap for dict chunks: address → current dict value. -/
abbrev Heap := Nat → DictVal

/-- Row of the `prompts` table / the `Prompt` pydantic model. -/
structure Prompt where
  id : String
  timestamp : Nat
  provider : String
  type : String
  request : String
deriving DecidableEq, Repr

/-- Row of the `outputs` table / the `Output` pydantic model. -/
structure Output where
  id : String
  prompt_id : String
  timestamp : Nat
  output : String
deriving DecidableEq, Repr

/-- Row of the `alerts` table / the `Alert` pydantic model. -/
structure Alert where
  id : String
  prompt_id : String
  code_snippet : Option String
  trigger_string : Option String
  trigger_type : String
  trigger_category : Option String
  timestamp : Nat
deriving DecidableEq, Repr

/-- Outcome of executing one SQL statement against the store: a decoded
returned row, no row, or a raised execution exception. -/
inductive ExecResult (α : Type) where
  | ok : Option α → ExecResult α
  | exc : String → ExecResult α
deriving DecidableEq, Repr

/-- `DbRecorder._insert_pydantic_model` (connection.py lines 88-106): execute
the insert; if no row is returned, return `None`; on any exception, log and
return `None`.  `store` is the store's response to inserting `model`. -/
def _insert_pydantic_model {α : Type} (store : α → ExecResult α) (model : α) :
    Option α :=
  match store model with
  | .ok none => none
  | .ok (some row) => some row
  | .exc _ => none

/-- A store that accepts every insert and returns the inserted row
(the normal `INSERT ... RETURNING *` behaviour). -/
def echoStore {α : Type} : α → ExecResult α := fun m => ExecResult.ok (some m)

/-- A chunk pulled from `model_response` in `record_output_stream`:
a pydantic `BaseModel` (carrying the dict its `model_dump` produces), a plain
`dict` (carried as a heap address, since Python dicts are mutable shared
references), or any other object (carried as its `str()` form). -/
inductive Chunk where
  | baseModel (dump : DictVal)
  | dict (addr : Nat)
  | other (s : String)
deriving DecidableEq, Repr

/-- An entry of the internal `output_chunks` buffer.  `copy` is an owned
dict value (produced by `model_dump`, `copy.deepcopy`, or the
`\x7b"chunk": str(chunk)\x7d` wrapper); `ref` would be a shared reference to
a caller-visible dict (what appending the chunk itself, without `deepcopy`,
would store).  The code as written only ever produces `copy`. -/
inductive Buffered where
  | copy (d : DictVal)
  | ref (addr : Nat)
deriving DecidableEq, Repr

/-- The loop body of `record_output_stream` (lines 162-168): normalize one
chunk to the buffered form, reading the heap `h` as it is at the moment the
chunk is pulled.  `BaseModel` → `model_dump`, `dict` → `copy.deepcopy`
(snapshot of the current heap value), otherwise `\x7b"chunk": str(chunk)\x7d`. -/
def normalize_chunk (h : Heap) : Chunk → Buffered
  | .baseModel d => .copy d
  | .dict a => .copy (h a)
  | .other s => .copy [("chunk", s)]

/-- Value of a buffer entry at flush time, under the heap `hFinal` current
when `json.dumps(output_chunks)` runs: an owned copy is its own value, a
shared reference reads the (possibly mutated) heap. -/
def bufferedValue (hFinal : Heap) : Buffered → DictVal
  | .copy d => d
  | .ref a => hFinal a

/-- `json.dumps` of a string (escapes not modelled; keys/values in this
model are plain text). -/
def jsonString (s : String) : String := "\"" ++ s ++ "\""

/-- Python's default `json.dumps` item separator. -/
def jsonSep : String := ", "

/-- `json.dumps` of one dict, with Python's default separators. -/
def jsonDict (d : DictVal) : String :=
  "\x7b" ++ String.intercalate jsonSep
    (d.map (fun p => jsonString p.1 ++ ": " ++ jsonString p.2)) ++ "\x7d"

/-- `json.dumps` of the accumulated list of dicts. -/
def jsonList (l : List DictVal) : String :=
  "[" ++ String.intercalate jsonSep (l.map jsonDict) ++ "]"

/-- One observable event of the stream path: appending a normalized chunk to
the internal buffer, or emitting (yielding) a chunk to the caller. -/
inductive StreamEvent where
  | append (b : Buffered)
  | emit (c : Chunk)
deriving DecidableEq, Repr

/-- Event trace of the `async for` loop of `record_output_stream`
(lines 161-169): for each pulled chunk, the generator body normalizes it and
appends it to `output_chunks` (lines 162-168) and then yields it to the
caller (line 169).  Each list element pairs the chunk with the heap at the
moment it was pulled. -/
def record_output_stream_trace : List (Chunk × Heap) → List StreamEvent
  | [] => []
  | p :: rest =>
      StreamEvent.append (normalize_chunk p.2 p.1) :: StreamEvent.emit p.1 ::
        record_output_stream_trace rest

/-- `DbRecorder._record_output` (lines 141-155): build the `Output` row for
`prompt` and hand it to `_insert_pydantic_model`.  Returns the insert result
together with the attempted row (the second component records that exactly
this row was sent to the store). -/
def _record_output (prompt : Prompt) (output_str : String) (outId : String)
    (ts : Nat) (store : Output → ExecResult Output) : Option Output × Output :=
  let output_params : Output :=
    { id := outId, prompt_id := prompt.id, timestamp := ts, output := output_str }
  (_insert_pydantic_model store output_params, output_params)

/-- Observable outcome of one full run of the generator returned by
`record_output_stream`. -/
structure StreamRun where
  /-- chunks yielded to the caller, in order -/
  emitted : List Chunk
  /-- final contents of the internal `output_chunks` buffer -/
  buffer : List Buffered
  /-- `Output` rows whose insert was attempted against the store -/
  writeAttempts : List Output
  /-- result of the terminal insert, when one happened -/
  result : Option Output
  /-- exception propagated to the caller, if any -/
  raised : Option String
deriving DecidableEq, Repr

/-- `DbRecorder.record_output_stream` (lines 157-174) as a trace function.
`stream` is the upstream chunk sequence, each chunk paired with the heap at
its pull moment; `stopAfter = some k` models the caller abandoning (closing)
the generator after consuming `k` chunks, in which case `GeneratorExit` is
thrown at the suspended `yield` and — the body having no `try/finally` — the
post-loop flush (lines 171-174) never runs.  On normal exhaustion, a
non-empty buffer is serialized with `json.dumps` under the flush-time heap
`hFinal` and written once via `_record_output`; with `prompt = none` that
call evaluates `prompt.id` on `None` and raises `AttributeError` before any
store interaction. -/
def record_output_stream_run (prompt : Option Prompt) (outId : String) (ts : Nat)
    (stream : List (Chunk × Heap)) (stopAfter : Option Nat)
    (store : Output → ExecResult Output) (hFinal : Heap) : StreamRun :=
  let aborted : Bool :=
    match stopAfter with
    | some k => decide (k < stream.length)
    | none => false
  let taken :=
    match stopAfter with
    | some k => stream.take k
    | none => stream
  let buffer := taken.map (fun p => normalize_chunk p.2 p.1)
  let emitted := taken.map Prod.fst
  if aborted then
    { emitted := emitted, buffer := buffer, writeAttempts := [],
      result := none, raised := none }
  else if buffer.isEmpty then
    { emitted := emitted, buffer := buffer, writeAttempts := [],
      result := none, raised := none }
  else
    match prompt with
    | none =>
        { emitted := emitted, buffer := buffer, writeAttempts := [],
          result := none, raised := some ("AttributeError") }
    | some p =>
        let output_str := jsonList (buffer.map (bufferedValue hFinal))
        let r := _record_output p output_str outId ts store
        { emitted := emitted, buffer := buffer, writeAttempts := [r.2],
          result := r.1, raised := none }

/-- The `normalized_request` argument of `record_request`: a pydantic
`BaseModel` (carrying its `model_dump_json` text), a non-model object
`json.dumps` can serialize (carrying that text), or an object `json.dumps`
raises on. -/
inductive NormalizedRequest where
  | baseModel (dump_json : String)
  | jsonOk (dumped : String)
  | jsonFail
deriving DecidableEq, Repr

/-- Lines 111-118 of `record_request`: the serialization attempt that
produces `request_str` (`None` when `json.dumps` failed on a non-model). -/
def serialize_request : NormalizedRequest → Option String
  | .baseModel s => some s
  | .jsonOk s => some s
  | .jsonFail => none

/-- `DbRecorder.record_request` (lines 108-139): serialize the request;
if nothing could be serialized, log and return `None` without any insert;
otherwise build the `Prompt` row (fresh `uuid.uuid4()` id, `"fim"` or
`"chat"` type) and insert it.  `genId`/`ts` stand for the `uuid.uuid4()` and
`datetime.now(utc)` calls; the second component lists the attempted
inserts. -/
def record_request (normalized_request : NormalizedRequest)
    (is_fim_request : Bool) (provider_str : String) (genId : String) (ts : Nat)
    (store : Prompt → ExecResult Prompt) : Option Prompt × List Prompt :=
  match serialize_request normalized_request with
  | none => (none, [])
  | some request_str =>
      let prompt_params : Prompt :=
        { id := genId, timestamp := ts, provider := provider_str,
          type := if is_fim_request then ("fim") else ("chat"),
          request := request_str }
      (_insert_pydantic_model store prompt_params, [prompt_params])

/-- The `model_response` argument of `record_output_non_stream`, with the
same three serialization cases as `NormalizedRequest`. -/
inductive ModelResponse where
  | baseModel (dump_json : String)
  | jsonOk (dumped : String)
  | jsonFail
deriving DecidableEq, Repr

/-- Lines 183-190 of `record_output_non_stream`: the serialization attempt
that produces `output_str`. -/
def serialize_response : ModelResponse → Option String
  | .baseModel s => some s
  | .jsonOk s => some s
  | .jsonFail => none

/-- `DbRecorder.record_output_non_stream` (lines 176-196): `None` prompt →
log and return `None` with no write; serialization failure → log and return
`None` with no write; otherwise one `_record_output` insert.  The second
component lists the attempted inserts. -/
def record_output_non_stream (prompt : Option Prompt) (model_response : ModelResponse)
    (outId : String) (ts : Nat) (store : Output → ExecResult Output) :
    Option Output × List Output :=
  match prompt with
  | none => (none, [])
  | some p =>
      match serialize_response model_response with
      | none => (none, [])
      | some output_str =>
          let r := _record_output p output_str outId ts store
          (r.1, [r.2])

/-- Per-alert store behaviour in `record_alerts`: a successful insert echoes
the row back, a failing one raises inside `_insert_pydantic_model` (where it
is caught and turned into `None`). -/
def alertStore (ok : Bool) : Alert → ExecResult Alert :=
  fun a => if ok then ExecResult.ok (some a) else ExecResult.exc ("insert failed")

/-- `DbRecorder.record_alerts` (lines 198-219): nothing on an empty list;
otherwise one independent `_insert_pydantic_model` task per alert, each with
its own transaction.  `flags` gives each alert's store outcome (`true` =
insert succeeds); the result list holds each task's return value, `none`
marking a caught-and-logged per-alert failure. -/
def record_alerts (alerts : List Alert) (flags : List Bool) : List (Option Alert) :=
  (alerts.zip flags).map (fun p => _insert_pydantic_model (alertStore p.2) p.1)

/-- The Alert rows present after `record_alerts`: the successfully returned
rows. -/
def recordedAlertRows (alerts : List Alert) (flags : List Bool) : List Alert :=
  (record_alerts alerts flags).filterMap id

/-- Python `str.strip` on whitespace (as used on schema statements). -/
def pyStrip (s : String) : String := s.trim

/-- The statement separator of the schema text. -/
def semicolon : String := ";"

/-- Line 81 of `init_db`: split the schema text on `";"`, strip each piece,
drop the empty ones. -/
def schemaStatements (schema : String) : List String :=
  ((schema.splitOn semicolon).map pyStrip).filter (fun stmt => stmt ≠ "")

/-- The world `init_db` runs against: whether the sqlite file exists, whether
the schema file exists and its text, and the opaque data already in the
store. -/
structure InitState where
  dbExists : Bool
  schemaExists : Bool
  schemaText : String
  data : List String
deriving DecidableEq, Repr

/-- `DbRecorder.init_db` (lines 60-86): if the database file exists, log and
return at once (zero statements executed); if the schema file is missing,
raise `FileNotFoundError`; otherwise execute every non-empty statement of
the schema.  Returns the resulting state and the list of DDL statements
executed. -/
def init_db (s : InitState) : Except String (InitState × List String) :=
  if s.dbExists then
    Except.ok (s, [])
  else if ¬ s.schemaExists then
    Except.error ("FileNotFoundError: Schema file not found")
  else
    Except.ok ({ s with dbExists := true }, schemaStatements s.schemaText)

/-- The default database path computed at lines 30-31 and 36-37:
`Path(__file__).parent.parent.parent.parent / "codegate.db"`, i.e.
`codegate.db` at the repository root. -/
def defaultDbPath : String := "/repo/codegate.db"

/-- The path separator, for the `Path.absolute` model. -/
def slash : String := "/"

/-- `Path(p).absolute()` relative to the process working directory. -/
def absolutize (cwd p : String) : String :=
  if p.startsWith slash then p else cwd ++ slash ++ p

/-- `DbCodeGate.__init__` path resolution (lines 27-37): the first block
(lines 29-33) picks the default path or the absolutized `sqlite_path`
override; the second block (lines 36-37) then reassigns `self._db_path` to
the default path unconditionally.  Returns the final `_db_path`. -/
def dbCodeGate_db_path (cwd : String) (sqlite_path : Option String) : String :=
  let _db_path :=
    match sqlite_path with
    | none => defaultDbPath
    | some s => absolutize cwd s
  let _db_path := defaultDbPath
  _db_path

/-- Line 40: engine URL built from the resolved `_db_path`. -/
def engineUrl (db_path : String) : String := "sqlite+aiosqlite:///" ++ db_path

/-- Hex digit test for the UUID format. -/
def isHexDigit (c : Char) : Bool :=
  c.isDigit || (('a' ≤ c && c ≤ 'f') || ('A' ≤ c && c ≤ 'F'))

/-- Canonical textual UUID version 4: 36 characters, dashes at positions
8, 13, 18, 23, the version nibble `4` at position 14, a variant nibble in
`8 9 a b` at position 19, hex digits elsewhere. -/
def isUuid4 (s : String) : Bool :=
  let cs := s.toList
  cs.length == 36 &&
    (List.range 36).all (fun i =>
      match cs.get? i with
      | none => false
      | some c =>
          if i == 8 || i == 13 || i == 18 || i == 23 then c == '-'
          else if i == 14 then c == '4'
          else if i == 19 then
            c == '8' || c == '9' || c == 'a' || c == 'b' || c == 'A' || c == 'B'
          else isHexDigit c)

/-- Concrete prompt used in witnesses and counterexamples. -/
def promptA : Prompt :=
  { id := "p-1", timestamp := 0, provider := "openai", type := "chat", request := "req" }

/-- Concrete heap used in witnesses and counterexamples. -/
def heap0 : Heap := fun _ => []

/-- Concrete chunk used in witnesses and counterexamples. -/
def chunkA : Chunk := Chunk.other ("a")

/-- Second concrete chunk used in witnesses and counterexamples. -/
def chunkB : Chunk := Chunk.other ("b")

/-- Concrete output row id used in witnesses and counterexamples. -/
def outIdA : String := "o-1"

/-- Concrete working directory used in the constructor-path theorems. -/
def cwdA : String := "/cwd"

/-- Concrete alert used in witnesses. -/
def alertA : Alert :=
  { id := "a-1", prompt_id := "p-1", code_snippet := none,
    trigger_string := some ("secret found"), trigger_type := "secret",
    trigger_category := none, timestamp := 1 }

/-- Second concrete alert used in witnesses. -/
def alertB : Alert :=
  { id := "a-2", prompt_id := "p-1", code_snippet := none,
    trigger_string := none, trigger_type := "pii",
    trigger_category := some ("privacy"), timestamp := 2 }

/-- Concrete valid version-4 UUID text used in witnesses. -/
def uuidSample : String := "00000000-0000-4000-8000-000000000000"

end Codegate

namespace Codegate

/-- Helper: echo store returns the model itself. -/
theorem insert_echo {α : Type} (m : α) : _insert_pydantic_model echoStore m = some m := rfl

/-- Claim C1: for every chunk sequence consumed to exhaustion (including the empty
one), `record_output_stream` re-emits every chunk unchanged and in the
original order, attempts at most one Output-row insert, and attempts zero
inserts when the sequence was empty. -/
theorem record_output_stream_reemits_and_single_write
    (prompt : Option Prompt) (outId : String) (ts : Nat)
    (stream : List (Chunk × Heap)) (store : Output → ExecResult Output)
    (hFinal : Heap) :
    (record_output_stream_run prompt outId ts stream none store hFinal).emitted
        = stream.map Prod.fst ∧
    (record_output_stream_run prompt outId ts stream none store hFinal).writeAttempts.length
        ≤ 1 ∧
    (stream = [] →
      (record_output_stream_run prompt outId ts stream none store hFinal).writeAttempts
        = []) := by
  cases stream with
  | nil => cases prompt <;> simp [record_output_stream_run]
  | cons p rest => cases prompt <;> simp [record_output_stream_run]

/-- Claim C1 witness: on a concrete two-chunk stream the theorem evaluates with
every definition concrete. -/
theorem record_output_stream_reemits_witness :
    (record_output_stream_run (some promptA) "o-1" 3
        [(chunkA, heap0), (Chunk.dict 0, heap0)] none echoStore heap0).emitted
      = [chunkA, Chunk.dict 0] ∧
    (record_output_stream_run (some promptA) "o-1" 3
        [(chunkA, heap0), (Chunk.dict 0, heap0)] none echoStore heap0).writeAttempts.length
      ≤ 1 :=
  ⟨(record_output_stream_reemits_and_single_write (some promptA) "o-1" 3
      [(chunkA, heap0), (Chunk.dict 0, heap0)] echoStore heap0).1,
   (record_output_stream_reemits_and_single_write (some promptA) "o-1" 3
      [(chunkA, heap0), (Chunk.dict 0, heap0)] echoStore heap0).2.1⟩

/-- Claim C6 counterexample: the caller abandons a two-chunk stream after one
chunk; the buffer holds that chunk, yet no Output write is attempted — the
claimed best-effort flush of the partial stream does not happen. -/
theorem record_output_stream_abandon_no_flush_cex :
    (record_output_stream_run (some promptA) "o-1" 3
        [(chunkA, heap0), (chunkB, heap0)] (some 1) echoStore heap0).buffer
      ≠ [] ∧
    (record_output_stream_run (some promptA) "o-1" 3
        [(chunkA, heap0), (chunkB, heap0)] (some 1) echoStore heap0).writeAttempts
      = [] := by
  constructor
  · decide
  · rfl

/-- Claim C6 amended: if the caller abandons the stream after `k` of more than `k`
chunks, the generator exits at the suspended yield without running the
post-loop flush: the chunks seen so far were emitted and buffered, but no
Output write is attempted and the buffer is discarded. -/
theorem record_output_stream_abandoned
    (prompt : Option Prompt) (outId : String) (ts : Nat)
    (stream : List (Chunk × Heap)) (k : Nat)
    (store : Output → ExecResult Output) (hFinal : Heap)
    (hk : k < stream.length) :
    record_output_stream_run prompt outId ts stream (some k) store hFinal
      = { emitted := (stream.take k).map Prod.fst,
          buffer := (stream.take k).map (fun p => normalize_chunk p.2 p.1),
          writeAttempts := [], result := none, raised := none } := by
  simp [record_output_stream_run, hk]

/-- Claim C6 amended witness: the amended theorem applied to the concrete
counterexample stream. -/
theorem record_output_stream_abandoned_witness :
    record_output_stream_run (some promptA) "o-1" 3
        [(chunkA, heap0), (chunkB, heap0)] (some 1) echoStore heap0
      = { emitted := [chunkA],
          buffer := [Buffered.copy [("chunk", "a")]],
          writeAttempts := [], result := none, raised := none } :=
  record_output_stream_abandoned (some promptA) "o-1" 3
    [(chunkA, heap0), (chunkB, heap0)] 1 echoStore heap0 (by decide)

/-- Claim C7: `init_db` on an already-existing database returns at once: no error,
zero DDL statements executed, the state (and so the stored data) unchanged;
and whenever `init_db` executes any statement at all, the database file did
not exist beforehand. -/
theorem init_db_idempotent (s : InitState) :
    (s.dbExists = true → init_db s = Except.ok (s, [])) ∧
    (∀ s' stmts, init_db s = Except.ok (s', stmts) → stmts ≠ [] →
      s.dbExists = false) := by
  by_cases h : s.dbExists = true
  · refine ⟨fun _ => by simp [init_db, h], ?_⟩
    intro s' stmts hrun hne
    rw [init_db] at hrun
    simp [h] at hrun
    exact absurd hrun.2 hne
  · simp only [Bool.not_eq_true] at h
    exact ⟨fun hc => absurd hc (by simp [h]), fun _ _ _ _ => h⟩

/-- Claim C7 witness: a concrete already-initialized store with data; `init_db`
leaves it untouched and runs zero statements. -/
theorem init_db_idempotent_witness :
    init_db { dbExists := true, schemaExists := true,
              schemaText := "CREATE TABLE prompts (id TEXT)",
              data := ["existing row"] }
      = Except.ok ({ dbExists := true, schemaExists := true,
                     schemaText := "CREATE TABLE prompts (id TEXT)",
                     data := ["existing row"] }, []) :=
  (init_db_idempotent _).1 rfl

/-- Claim C2 counterexample: on a one-chunk stream the loop body appends the
normalized chunk to `output_chunks` (lines 162-168) and only then yields it
(line 169): the trace is append-then-emit, so the emit of the chunk does not
precede the append of its normalized copy. -/
theorem record_output_stream_append_before_emit_cex :
    record_output_stream_trace [(chunkA, heap0)]
      = [StreamEvent.append (Buffered.copy [("chunk", "a")]),
         StreamEvent.emit (chunkA)] ∧
    ¬ ((record_output_stream_trace [(chunkA, heap0)]).indexOf
          (StreamEvent.emit (chunkA))
        < (record_output_stream_trace [(chunkA, heap0)]).indexOf
          (StreamEvent.append (Buffered.copy [("chunk", "a")]))) := by
  constructor
  · rfl
  · decide

/-- Claim C2 amended: for every stream and every position `i`, the trace of the
loop places the append of chunk `i`'s normalized copy at index `2i` and its
emission to the caller at index `2i + 1`: per chunk the order is
append-then-emit, chunks are processed in the original order, and no other
events are interleaved. -/
theorem record_output_stream_append_then_emit
    (stream : List (Chunk × Heap)) (i : Nat) :
    (record_output_stream_trace stream)[2 * i]?
        = (stream[i]?).map (fun p => StreamEvent.append (normalize_chunk p.2 p.1)) ∧
    (record_output_stream_trace stream)[2 * i + 1]?
        = (stream[i]?).map (fun p => StreamEvent.emit p.1) := by
  induction stream generalizing i with
  | nil => simp [record_output_stream_trace]
  | cons p rest ih =>
      cases i with
      | zero => simp [record_output_stream_trace]
      | succ n =>
          have h2 : 2 * (n + 1) = 2 * n + 1 + 1 := by ring
          rw [h2]
          simpa [record_output_stream_trace] using ih n

/-- Claim C3 counterexample: with `prompt = None` and a non-empty stream,
`_record_output` evaluates `prompt.id` on `None` after the last chunk, so
the generator raises `AttributeError` to the caller instead of raising
nothing. -/
theorem record_output_stream_none_prompt_raises_cex :
    (record_output_stream_run none outIdA 3 [(chunkA, heap0)] none
        echoStore heap0).raised ≠ none := by
  decide

/-- Claim C3 amended: with `prompt = None`, both output-recording operations
attempt zero store writes; `record_output_non_stream` logs and returns
`None`, and `record_output_stream` still emits every chunk unchanged — but
the stream variant, having no `None` guard, raises `AttributeError` after
the final chunk whenever the sequence was non-empty (and raises nothing
only on the empty sequence). -/
theorem none_prompt_zero_writes_amended
    (model_response : ModelResponse) (outId : String) (ts : Nat)
    (ostore : Output → ExecResult Output) (stream : List (Chunk × Heap))
    (hFinal : Heap) :
    record_output_non_stream none model_response outId ts ostore = (none, []) ∧
    (record_output_stream_run none outId ts stream none ostore hFinal).writeAttempts
      = [] ∧
    (record_output_stream_run none outId ts stream none ostore hFinal).emitted
      = stream.map Prod.fst ∧
    (record_output_stream_run none outId ts stream none ostore hFinal).raised
      = (if stream.isEmpty then none else some ("AttributeError")) := by
  refine ⟨rfl, ?_⟩
  cases stream with
  | nil => simp [record_output_stream_run]
  | cons p rest => simp [record_output_stream_run]

/-- Claim C5: every Recorder write path is non-throwing and surfaces per-record
write failure only as a `None` result: the generic insert helper returns
`None` when the store returns no row and `None` when execution raises, and
under an always-raising store `record_request`, `record_output_non_stream`
and the stream flush all complete without raising, returning `None`
results. -/
theorem recorder_write_paths_nonthrowing
    (m : Output) (a : Alert) (e : String)
    (normalized_request : NormalizedRequest) (is_fim : Bool)
    (provider genId outId : String) (ts : Nat) (p : Prompt)
    (model_response : ModelResponse)
    (stream : List (Chunk × Heap)) (hFinal : Heap) :
    _insert_pydantic_model (fun _ => ExecResult.ok none) m = none ∧
    _insert_pydantic_model (fun _ => ExecResult.exc e) m = none ∧
    _insert_pydantic_model (fun _ => ExecResult.exc e) a = none ∧
    (record_request normalized_request is_fim provider genId ts
        (fun _ => ExecResult.exc e)).1 = none ∧
    (record_output_non_stream (some p) model_response outId ts
        (fun _ => ExecResult.exc e)).1 = none ∧
    (record_output_stream_run (some p) outId ts stream none
        (fun _ => ExecResult.exc e) hFinal).raised = none ∧
    (record_output_stream_run (some p) outId ts stream none
        (fun _ => ExecResult.exc e) hFinal).result = none := by
  refine ⟨rfl, rfl, rfl, ?_, ?_, ?_, ?_⟩
  · cases normalized_request <;> rfl
  · cases model_response <;> rfl
  · cases stream with
    | nil => rfl
    | cons c rest => simp [record_output_stream_run, _record_output, _insert_pydantic_model]
  · cases stream with
    | nil => rfl
    | cons c rest => simp [record_output_stream_run, _record_output, _insert_pydantic_model]

/-- Helper: the per-alert insert reduces to its own success flag. -/
theorem insert_alertStore (a : Alert) (ok : Bool) :
    _insert_pydantic_model (alertStore ok) a = if ok then some a else none := by
  cases ok <;> rfl

/-- Helper: `record_alerts` on a cons. -/
theorem record_alerts_cons (a : Alert) (tl : List Alert) (f : Bool) (ftl : List Bool) :
    record_alerts (a :: tl) (f :: ftl)
      = _insert_pydantic_model (alertStore f) a :: record_alerts tl ftl := by
  simp [record_alerts]

/-- Helper: the surviving rows on a cons. -/
theorem recordedAlertRows_cons (a : Alert) (tl : List Alert) (f : Bool) (ftl : List Bool) :
    recordedAlertRows (a :: tl) (f :: ftl)
      = (if f then [a] else []) ++ recordedAlertRows tl ftl := by
  cases f <;> simp [recordedAlertRows, record_alerts_cons, insert_alertStore]

/-- Helper: number of surviving rows equals the number of successful flags. -/
theorem recordedAlertRows_length (alerts : List Alert) (flags : List Bool)
    (h : flags.length = alerts.length) :
    (recordedAlertRows alerts flags).length = flags.count true := by
  induction alerts generalizing flags with
  | nil =>
      cases flags with
      | nil => rfl
      | cons f ftl => simp at h
  | cons a tl ih =>
      cases flags with
      | nil => simp at h
      | cons f ftl =>
          have h' : ftl.length = tl.length := by simpa using h
          cases f <;> simp [recordedAlertRows_cons, ih ftl h', List.count_cons]

/-- Helper: every surviving row is one of the submitted alerts. -/
theorem recordedAlertRows_subset (alerts : List Alert) (flags : List Bool) :
    ∀ r ∈ recordedAlertRows alerts flags, r ∈ alerts := by
  induction alerts generalizing flags with
  | nil =>
      intro r hr
      simp [recordedAlertRows, record_alerts] at hr
  | cons a tl ih =>
      cases flags with
      | nil =>
          intro r hr
          simp [recordedAlertRows, record_alerts] at hr
      | cons f ftl =>
          intro r hr
          rw [recordedAlertRows_cons] at hr
          rcases List.mem_append.1 hr with h1 | h2
          · cases f with
            | true =>
                simp only [if_pos] at h1
                simp only [List.mem_singleton] at h1
                simp [h1]
            | false => simp at h1
          · exact List.mem_cons_of_mem _ (ih ftl r h2)

/-- Helper: each element of a Bool list is counted once as true or false. -/
theorem count_true_add_count_false (l : List Bool) :
    l.count true + l.count false = l.length := by
  induction l with
  | nil => rfl
  | cons b tl ih => cases b <;> simp [List.count_cons] <;> omega

/-- Helper: the result slot of each alert depends only on that alert and its
own store outcome. -/
theorem record_alerts_get (alerts : List Alert) (flags : List Bool) (i : Nat) :
    (record_alerts alerts flags)[i]?
      = (alerts[i]?).bind (fun a => (flags[i]?).map (fun ok =>
          _insert_pydantic_model (alertStore ok) a)) := by
  induction alerts generalizing flags i with
  | nil => simp [record_alerts]
  | cons a tl ih =>
      cases flags with
      | nil => cases i <;> simp [record_alerts]
      | cons f ftl =>
          cases i with
          | zero => simp [record_alerts_cons]
          | succ n => simpa [record_alerts_cons] using ih ftl n

/-- Claim C4: with one store outcome per alert, `record_alerts` is a no-op on the
empty list, each alert's insert is an independent task whose result depends
only on that alert and its own outcome (so one failure neither cancels nor
rolls back a sibling), the operation completes for every outcome vector,
and exactly the N − K alerts whose insert succeeded survive as rows, each a
submitted alert (hence linked to its own `prompt_id`). -/
theorem record_alerts_isolation (alerts : List Alert) (flags : List Bool)
    (h : flags.length = alerts.length) :
    record_alerts [] flags = [] ∧
    (recordedAlertRows alerts flags).length
      = alerts.length - flags.count false ∧
    (∀ r ∈ recordedAlertRows alerts flags, r ∈ alerts) ∧
    (∀ i : Nat, (record_alerts alerts flags)[i]?
        = (alerts[i]?).bind (fun a => (flags[i]?).map (fun ok =>
            _insert_pydantic_model (alertStore ok) a))) := by
  refine ⟨by simp [record_alerts], ?_,
    recordedAlertRows_subset alerts flags, record_alerts_get alerts flags⟩
  rw [recordedAlertRows_length alerts flags h]
  have hc := count_true_add_count_false flags
  omega

/-- Claim C4 witness: two alerts of which the second fails; exactly one row
survives, and it is the first alert. -/
theorem record_alerts_isolation_witness :
    (recordedAlertRows [alertA, alertB] [true, false]).length
      = [alertA, alertB].length - [true, false].count false ∧
    ∀ r ∈ recordedAlertRows [alertA, alertB] [true, false], r ∈ [alertA, alertB] :=
  ⟨(record_alerts_isolation [alertA, alertB] [true, false] (by decide)).2.1,
   (record_alerts_isolation [alertA, alertB] [true, false] (by decide)).2.2.1⟩

/-- Claim C9: with an in-range store, `record_request` returns a Prompt whose id
is the freshly generated UUID (valid v4 when the generator meets its
contract), whose type is `fim` exactly when `is_fim_request` holds and
`chat` otherwise, and whose request field is exactly the serialized request
text; and when neither serialization path succeeds it returns `None` with
zero insert attempts. -/
theorem record_request_roundtrip (normalized_request : NormalizedRequest)
    (s provider genId : String) (is_fim : Bool) (ts : Nat)
    (hs : serialize_request normalized_request = some s)
    (hid : isUuid4 genId = true) :
    (∃ p : Prompt,
      (record_request normalized_request is_fim provider genId ts echoStore).1
        = some p ∧
      p.id = genId ∧ isUuid4 p.id = true ∧
      p.type = (if is_fim then ("fim") else ("chat")) ∧ p.request = s) ∧
    (∀ nr, serialize_request nr = none →
      record_request nr is_fim provider genId ts echoStore = (none, [])) := by
  constructor
  · refine ⟨{ id := genId, timestamp := ts, provider := provider,
              type := if is_fim then ("fim") else ("chat"), request := s },
      ?_, rfl, hid, rfl, rfl⟩
    simp [record_request, hs, insert_echo]
  · intro nr hnr
    simp [record_request, hnr]

/-- Claim C9 witness: a concrete fim request round-trips through the echo store
with a concrete valid v4 UUID. -/
theorem record_request_roundtrip_witness :
    ∃ p : Prompt,
      (record_request (NormalizedRequest.baseModel ("[1]")) true "openai"
          uuidSample 5 echoStore).1 = some p ∧
      p.id = uuidSample ∧ isUuid4 p.id = true ∧
      p.type = (if true then ("fim") else ("chat")) ∧ p.request = "[1]" :=
  (record_request_roundtrip (NormalizedRequest.baseModel ("[1]")) "[1]" "openai"
    uuidSample true 5 rfl (by decide)).1

/-- Helper: flush-time serialization of the buffered forms does not depend
on the flush-time heap, because every buffered entry is an owned copy. -/
theorem map_bufferedValue_normalize (h1 h2 : Heap) (l : List (Chunk × Heap)) :
    (l.map (fun p => normalize_chunk p.2 p.1)).map (bufferedValue h1)
      = (l.map (fun p => normalize_chunk p.2 p.1)).map (bufferedValue h2) := by
  apply List.map_congr_left
  intro b hb
  rcases List.mem_map.1 hb with ⟨q, hq, rfl⟩
  cases hqc : q.1 <;> rfl

/-- Claim C10: the whole observable outcome of `record_output_stream` — in
particular the Output row eventually written — is unchanged under any
mutation of the heap between the last pull and the flush (`deepcopy` stores
owned snapshots, never live references), and for a plain-dict chunk the
buffered entry is exactly a copy of the dict's value at the moment the
chunk was pulled. -/
theorem record_output_stream_deepcopy_frame (prompt : Option Prompt)
    (outId : String) (ts : Nat) (stream : List (Chunk × Heap))
    (stopAfter : Option Nat) (store : Output → ExecResult Output)
    (h1 h2 hpull : Heap) (addr : Nat) :
    record_output_stream_run prompt outId ts stream stopAfter store h1
      = record_output_stream_run prompt outId ts stream stopAfter store h2 ∧
    normalize_chunk hpull (Chunk.dict addr) = Buffered.copy (hpull addr) := by
  refine ⟨?_, rfl⟩
  cases prompt with
  | none => rfl
  | some p =>
      simp only [record_output_stream_run]
      rw [map_bufferedValue_normalize h1 h2]

/-- Claim C8 (code bug in the constructor): with an explicit `sqlite_path`
override, lines 36-37 reassign `self._db_path` to the default path, so the
resolved path — and with it `does_db_exist` and the engine URL — ignores the
override entirely. -/
theorem dbCodeGate_ignores_sqlite_path :
    dbCodeGate_db_path cwdA (some ("/tmp/custom.db")) = defaultDbPath ∧
    dbCodeGate_db_path cwdA (some ("/tmp/custom.db")) ≠ "/tmp/custom.db" ∧
    engineUrl (dbCodeGate_db_path cwdA (some ("/tmp/custom.db")))
      = "sqlite+aiosqlite:///" ++ defaultDbPath := by
  refine ⟨rfl, ?_, rfl⟩
  decide

end Codegate
